import Mathlib

/-!
Verification development for the fortudo task-scheduling engine.

The repository ships the engine's end-to-end test suite; the engine itself
(time/interval model, task store, conflict detector, gap computer, and the
scheduling workflow) is described by the design spec.  Every definition below
is a shallow embedding of that engine: times are integer minutes since local
midnight, durations are minute counts, and all operations are pure functions
over an explicit store state.
-/

namespace Fortudo

/-- Modelled from the spec: priority tiers for unscheduled tasks (§3);
the engine source is not in the repository, only its E2E tests. -/
inductive Priority
  | low
  | medium
  | high
deriving DecidableEq, Repr

/-- Modelled from the spec: numeric rank of a priority tier, `high > medium > low`. -/
def Priority.rank : Priority → Nat
  | .high => 2
  | .medium => 1
  | .low => 0

/-- Modelled from the spec: a time-bound task (§3).  `startTime` is
minute-of-day, `durationMinutes ≥ 1` is the data-model invariant, and
`createdAt` is the monotonic insertion-order tiebreaker. -/
structure ScheduledTask where
  id : Nat
  description : String
  startTime : Nat
  durationMinutes : Nat
  completed : Bool
  locked : Bool
  createdAt : Nat
deriving DecidableEq, Repr

/-- Modelled from the spec: derived end time, `startTime + durationMinutes`. -/
def ScheduledTask.endTime (t : ScheduledTask) : Nat :=
  t.startTime + t.durationMinutes

/-- Modelled from the spec: a priority-bound task with no fixed time (§3). -/
structure UnscheduledTask where
  id : Nat
  description : String
  priority : Priority
  estimatedDurationMinutes : Nat
  completed : Bool
  createdAt : Nat
deriving DecidableEq, Repr

/-- Modelled from the spec: a half-open time interval in minute-of-day. -/
structure Interval where
  start : Nat
  stop : Nat
deriving DecidableEq, Repr

/-- Modelled from the spec (§4.1): `overlaps(a, b)` is true iff
`a.start < b.end && b.start < a.end` (half-open intervals). -/
def overlaps (a b : Interval) : Bool :=
  decide (a.start < b.stop) && decide (b.start < a.stop)

/-- Modelled from the spec: the occupied interval of a scheduled task. -/
def ScheduledTask.interval (t : ScheduledTask) : Interval :=
  ⟨t.startTime, t.endTime⟩

/-- Boolean substring test on strings, used to state the UI-text assertions
of the test suite (warning mentions a task name, button label says
Reschedule, gap text says free). -/
def containsStr (s pat : String) : Bool :=
  decide (pat.data <:+: s.data)

/-- Modelled from the spec: a derived idle interval strictly between two
chronologically adjacent scheduled tasks (§3). -/
structure Gap where
  startTime : Nat
  endTime : Nat
deriving DecidableEq, Repr

/-- Modelled from the spec: gap duration, `endTime - startTime`. -/
def Gap.durationMinutes (g : Gap) : Nat :=
  g.endTime - g.startTime

/-- Modelled from the spec (§4.4): given the ascending scheduled-task list,
one `Gap` per adjacent pair whose next task starts strictly after the
previous task ends. -/
def computeGaps : List ScheduledTask → List Gap
  | a :: b :: rest =>
      (if a.endTime < b.startTime then [⟨a.endTime, b.startTime⟩] else [])
        ++ computeGaps (b :: rest)
  | _ => []

/-- Chronologically adjacent pairs of a (sorted) scheduled-task list. -/
def adjacentPairs : List ScheduledTask → List (ScheduledTask × ScheduledTask)
  | a :: b :: rest => (a, b) :: adjacentPairs (b :: rest)
  | _ => []

/-- Modelled from the spec (§4.4) and the test helper duration_label:
human-duration string built from hours and minutes, omitting a zero
component, falling back to 0m only when both are zero. -/
def calculateHoursAndMinutes (m : Nat) : String :=
  let h := m / 60
  let r := m % 60
  if h = 0 ∧ r = 0 then "0m"
  else if h = 0 then toString r ++ "m"
  else if r = 0 then toString h ++ "h"
  else toString h ++ "h " ++ toString r ++ "m"

/-- Modelled from the spec: the human-duration label of a gap. -/
def gapLabel (g : Gap) : String :=
  calculateHoursAndMinutes g.durationMinutes

/-- Modelled from the spec and the gap-indicator tests: the rendered text of
a gap entry, its duration label followed by the word free. -/
def gapText (g : Gap) : String :=
  gapLabel g ++ " free"

/-- Modelled from the spec (§4.2): the sort order of the scheduled list,
ascending start time with ties broken by creation order. -/
def schedLE (a b : ScheduledTask) : Prop :=
  a.startTime < b.startTime ∨ (a.startTime = b.startTime ∧ a.createdAt ≤ b.createdAt)

instance : DecidableRel schedLE := fun a b => by
  unfold schedLE; exact inferInstance

instance : IsTotal ScheduledTask schedLE :=
  ⟨fun a b => by unfold schedLE; omega⟩

instance : IsTrans ScheduledTask schedLE :=
  ⟨fun a b c hab hbc => by unfold schedLE at hab hbc ⊢; omega⟩

/-- Modelled from the spec (§4.2): the sort order of the unscheduled list,
priority descending with ties broken by creation (insertion) order. -/
def unschedLE (a b : UnscheduledTask) : Prop :=
  b.priority.rank < a.priority.rank ∨
    (a.priority.rank = b.priority.rank ∧ a.createdAt ≤ b.createdAt)

instance : DecidableRel unschedLE := fun a b => by
  unfold unschedLE; exact inferInstance

instance : IsTotal UnscheduledTask unschedLE :=
  ⟨fun a b => by unfold unschedLE; omega⟩

instance : IsTrans UnscheduledTask unschedLE :=
  ⟨fun a b c hab hbc => by unfold unschedLE at hab hbc ⊢; omega⟩

/-- Modelled from the spec (§4.2): the in-memory task store of the active
room, holding the scheduled and unscheduled collections and the id counter. -/
structure StoreState where
  scheduled : List ScheduledTask
  unscheduled : List UnscheduledTask
  nextId : Nat
deriving DecidableEq, Repr

/-- Modelled from the spec: the exposed scheduled list, always sorted
ascending by start time with ties broken by creation order. -/
def scheduledView (st : StoreState) : List ScheduledTask :=
  List.insertionSort schedLE st.scheduled

/-- Modelled from the spec: the exposed unscheduled list, always sorted by
priority descending with ties in insertion order. -/
def unscheduledView (st : StoreState) : List UnscheduledTask :=
  List.insertionSort unschedLE st.unscheduled

/-- True when the task is not the one excluded from conflict detection
(the task being edited against itself). -/
def notExcluded (excludeId : Option Nat) (t : ScheduledTask) : Bool :=
  match excludeId with
  | none => true
  | some i => decide (t.id ≠ i)

/-- Modelled from the spec (§4.3): every scheduled task, other than the
excluded one, whose interval overlaps the candidate, in ascending
start-time order. -/
def findConflicts (scheduled : List ScheduledTask) (cand : Interval)
    (excludeId : Option Nat) : List ScheduledTask :=
  (List.insertionSort schedLE scheduled).filter fun t =>
    notExcluded excludeId t && overlaps cand t.interval

/-- Modelled from the spec (§4.3): empty string when there is no conflict,
otherwise a sentence naming the first conflicting task's description
verbatim. -/
def describeConflicts (conflicts : List ScheduledTask) : String :=
  match conflicts with
  | [] => ""
  | c :: _ => "This time overlaps with " ++ c.description ++ "."

/-- Modelled from the spec (§4.5): the per-surface confirmation states. -/
inductive SurfaceState
  | idle
  | conflictFree
  | conflicted
deriving DecidableEq, Repr

/-- Modelled from the spec (§4.5): the three editing surfaces that share one
conflict-detection contract. -/
inductive SurfaceKind
  | addForm
  | inlineEdit
  | scheduleModal
deriving DecidableEq, Repr

/-- Modelled from the spec (§4.5): a candidate interval with at least one
conflict puts the surface in the conflicted state. -/
def surfaceStateFor (scheduled : List ScheduledTask) (cand : Interval)
    (excludeId : Option Nat) : SurfaceState :=
  if findConflicts scheduled cand excludeId = [] then .conflictFree else .conflicted

/-- Modelled from the spec (§4.5): the submit affordance's label, signalling
Reschedule in the conflicted state and the surface's normal verb otherwise. -/
def submitLabel (k : SurfaceKind) (s : SurfaceState) : String :=
  match s, k with
  | .conflicted, _ => "Reschedule"
  | _, .addForm => "Add Task"
  | _, .inlineEdit => "Save"
  | _, .scheduleModal => "Schedule"

/-- Modelled from the spec: a candidate scheduled task being edited on a
surface (description, start time, duration). -/
structure Candidate where
  description : String
  startTime : Nat
  durationMinutes : Nat
deriving DecidableEq, Repr

/-- Modelled from the spec: the candidate's half-open interval. -/
def Candidate.interval (c : Candidate) : Interval :=
  ⟨c.startTime, c.startTime + c.durationMinutes⟩

/-- Modelled from the spec (§4.5): submitting the add form.  An empty
description is rejected with no state change; otherwise the task is written
immediately.  The Boolean is whether a secondary confirmation dialog was
shown: never, since a live-surfaced conflict is a pre-approval. -/
def submitAdd (st : StoreState) (c : Candidate) : StoreState × Bool :=
  if c.description = "" then (st, false)
  else
    ({ scheduled := st.scheduled ++
         [⟨st.nextId, c.description, c.startTime, c.durationMinutes, false, false, st.nextId⟩],
       unscheduled := st.unscheduled,
       nextId := st.nextId + 1 }, false)

/-- Modelled from the spec (§4.5): submitting the inline edit of a scheduled
task.  An empty description is rejected; otherwise the task's fields are
updated in place, with no secondary confirmation dialog. -/
def submitEdit (st : StoreState) (id : Nat) (c : Candidate) : StoreState × Bool :=
  if c.description = "" then (st, false)
  else
    ({ st with scheduled := st.scheduled.map fun t =>
         if t.id = id then
           { t with description := c.description, startTime := c.startTime,
                    durationMinutes := c.durationMinutes }
         else t }, false)

/-- Modelled from the spec (§4.2): `schedule(id, startTime, durationMinutes)`
moves an unscheduled task into the scheduled set.  The Boolean is whether a
secondary confirmation dialog was shown: never. -/
def scheduleTask (st : StoreState) (id : Nat) (startTime durationMinutes : Nat) :
    StoreState × Bool :=
  match st.unscheduled.find? (fun u => u.id == id) with
  | none => (st, false)
  | some u =>
      ({ scheduled := st.scheduled ++
           [⟨u.id, u.description, startTime, durationMinutes, u.completed, false, u.createdAt⟩],
         unscheduled := st.unscheduled.eraseP (fun u => u.id == id),
         nextId := st.nextId }, false)

/-- Modelled from the spec (§4.5): the picker opened by selecting a gap lists
only the unscheduled tasks, in their exposed order. -/
def gapPickerList (st : StoreState) : List UnscheduledTask :=
  unscheduledView st

/-- Modelled from the spec: the schedule-modal prefill produced by the
gap-fill flow. -/
structure ModalPrefill where
  startTime : Nat
  durationMinutes : Nat
deriving DecidableEq, Repr

/-- Modelled from the spec (§4.5): selecting a task from the gap picker
pre-fills the schedule modal with the gap's start time and the task's own
estimated duration. -/
def prefillFromGap (g : Gap) (t : UnscheduledTask) : ModalPrefill :=
  ⟨g.startTime, t.estimatedDurationMinutes⟩

/-- Modelled from the spec: the user's response to a confirmation dialog. -/
inductive ConfirmOutcome
  | accepted
  | cancelled
deriving DecidableEq, Repr

/-- Modelled from the spec (§4.5, Scenario E): the bulk clear-all flow.  A
confirmation dialog is always shown before any mutation (the Boolean result);
only an accepted dialog empties both collections. -/
def clearAllFlow (st : StoreState) (response : ConfirmOutcome) : StoreState × Bool :=
  match response with
  | .accepted => ({ scheduled := [], unscheduled := [], nextId := st.nextId }, true)
  | .cancelled => (st, true)

/-- Modelled from the spec (§6): a persisted per-room document, one per task,
emitted as a full upsert on every mutation.  The unscheduled variant stores
its priority tier by name. -/
inductive TaskDoc
  | scheduledDoc (id : Nat) (description : String) (startTime durationMinutes : Nat)
      (completed locked : Bool) (createdAt : Nat)
  | unscheduledDoc (id : Nat) (description : String) (priorityName : String)
      (estimatedDurationMinutes : Nat) (completed : Bool) (createdAt : Nat)
deriving DecidableEq, Repr

/-- Modelled from the spec: the persisted name of a priority tier. -/
def priorityName : Priority → String
  | .high => "high"
  | .medium => "medium"
  | .low => "low"

/-- Modelled from the spec: parse a persisted priority name. -/
def priorityOfName (s : String) : Option Priority :=
  if s = "high" then some .high
  else if s = "medium" then some .medium
  else if s = "low" then some .low
  else none

/-- Modelled from the spec: the persisted document of a scheduled task. -/
def encodeScheduled (t : ScheduledTask) : TaskDoc :=
  .scheduledDoc t.id t.description t.startTime t.durationMinutes t.completed t.locked t.createdAt

/-- Modelled from the spec: the persisted document of an unscheduled task. -/
def encodeUnscheduled (t : UnscheduledTask) : TaskDoc :=
  .unscheduledDoc t.id t.description (priorityName t.priority)
    t.estimatedDurationMinutes t.completed t.createdAt

/-- Decode a persisted document back into a scheduled task, when it is one. -/
def decodeScheduled : TaskDoc → Option ScheduledTask
  | .scheduledDoc i d s dur c l ca => some ⟨i, d, s, dur, c, l, ca⟩
  | .unscheduledDoc _ _ _ _ _ _ => none

/-- Decode a persisted document back into an unscheduled task, when it is one
and its priority name parses. -/
def decodeUnscheduled : TaskDoc → Option UnscheduledTask
  | .scheduledDoc _ _ _ _ _ _ _ => none
  | .unscheduledDoc i d p e c ca => (priorityOfName p).map fun pr => ⟨i, d, pr, e, c, ca⟩

/-- Modelled from the spec (§6): the ordered snapshot of all tasks of the
active room, one document per task. -/
def saveRoom (st : StoreState) : List TaskDoc :=
  st.scheduled.map encodeScheduled ++ st.unscheduled.map encodeUnscheduled

/-- The id carried by a persisted document. -/
def docId : TaskDoc → Nat
  | .scheduledDoc i _ _ _ _ _ _ => i
  | .unscheduledDoc i _ _ _ _ _ => i

/-- Modelled from the spec (§6): on room activation the engine re-derives its
whole in-memory state from the persisted snapshot. -/
def loadRoom (docs : List TaskDoc) : StoreState :=
  { scheduled := docs.filterMap decodeScheduled,
    unscheduled := docs.filterMap decodeUnscheduled,
    nextId := (docs.map docId).foldr max 0 + 1 }

/-- Scenario B of the spec (§8): Team standup 09:00 for 30 minutes, Code
review 09:30 for 60 minutes, Lunch break 12:00 for 60 minutes. -/
def scenarioB : StoreState :=
  { scheduled :=
      [⟨0, "Team standup", 540, 30, false, false, 0⟩,
       ⟨1, "Code review", 570, 60, false, false, 1⟩,
       ⟨2, "Lunch break", 720, 60, false, false, 2⟩],
    unscheduled := [],
    nextId := 3 }

theorem mem_computeGaps_lt (l : List ScheduledTask) (g : Gap)
    (hg : g ∈ computeGaps l) : g.startTime < g.endTime := by
  induction l with
  | nil => simp [computeGaps] at hg
  | cons a tl ih =>
    cases tl with
    | nil => simp [computeGaps] at hg
    | cons b rest =>
      rw [computeGaps] at hg
      rcases List.mem_append.1 hg with h | h
      · by_cases hab : a.endTime < b.startTime
        · simp [hab] at h
          subst h
          exact hab
        · simp [hab] at h
      · exact ih h

theorem length_computeGaps (l : List ScheduledTask) :
    (computeGaps l).length =
      (adjacentPairs l).countP (fun p => decide (p.1.endTime < p.2.startTime)) := by
  induction l with
  | nil => rfl
  | cons a tl ih =>
    cases tl with
    | nil => rfl
    | cons b rest =>
      by_cases hab : a.endTime < b.startTime <;>
        simp [computeGaps, adjacentPairs, List.countP_cons, hab, ih]

theorem length_eraseP_of_find {α : Type} (p : α → Bool) :
    ∀ (l : List α) (u : α), l.find? p = some u →
      (l.eraseP p).length + 1 = l.length := by
  intro l
  induction l with
  | nil => intro u h; simp at h
  | cons a tl ih =>
    intro u h
    cases hpa : p a with
    | true => simp [List.eraseP_cons, hpa]
    | false =>
      rw [List.find?_cons_of_neg tl (by simp [hpa])] at h
      simp [List.eraseP_cons, hpa]
      exact ih u h

theorem containsStr_of_middle (pre mid post : String) :
    containsStr (pre ++ mid ++ post) mid = true := by
  unfold containsStr
  rw [decide_eq_true_iff]
  exact ⟨pre.data, post.data, by simp [String.data_append]⟩

theorem describeConflicts_cons_ne (c : ScheduledTask) (rest : List ScheduledTask) :
    describeConflicts (c :: rest) ≠ "" := by
  intro h
  have hl := congrArg String.length h
  rw [show describeConflicts (c :: rest) =
        "This time overlaps with " ++ c.description ++ "." from rfl,
      String.length_append, String.length_append,
      show ("This time overlaps with " : String).length = 24 from rfl,
      show ("." : String).length = 1 from rfl,
      show ("" : String).length = 0 from rfl] at hl
  omega

theorem filterMap_decS_map_encS (l : List ScheduledTask) :
    (l.map encodeScheduled).filterMap decodeScheduled = l := by
  induction l with
  | nil => rfl
  | cons a tl ih => simp [List.filterMap_cons, encodeScheduled, decodeScheduled, ih]

theorem filterMap_decS_map_encU (l : List UnscheduledTask) :
    (l.map encodeUnscheduled).filterMap decodeScheduled = [] := by
  induction l with
  | nil => rfl
  | cons a tl ih => simp [List.filterMap_cons, encodeUnscheduled, decodeScheduled, ih]

theorem decodeUnscheduled_encodeUnscheduled (u : UnscheduledTask) :
    decodeUnscheduled (encodeUnscheduled u) = some u := by
  cases u with
  | mk i d p e c ca => cases p <;> rfl

theorem filterMap_decU_map_encU (l : List UnscheduledTask) :
    (l.map encodeUnscheduled).filterMap decodeUnscheduled = l := by
  induction l with
  | nil => rfl
  | cons a tl ih =>
    simp [List.filterMap_cons, decodeUnscheduled_encodeUnscheduled, ih]

theorem filterMap_decU_map_encS (l : List ScheduledTask) :
    (l.map encodeScheduled).filterMap decodeUnscheduled = [] := by
  induction l with
  | nil => rfl
  | cons a tl ih => simp [List.filterMap_cons, encodeScheduled, decodeUnscheduled, ih]

/-- Claim C1: the overlap predicate on scheduled intervals is half-open:
`overlaps(a, b)` is true iff `a.start < b.end` and `b.start < a.end`; a
candidate whose start time equals an existing scheduled task's start time
conflicts with that task (both intervals being nonempty, per the data-model
invariant `durationMinutes ≥ 1`); and two exactly back-to-back tasks do not
overlap and produce no gap indicator between them. -/
theorem C1_overlap_half_open :
    (∀ a b : Interval, overlaps a b = true ↔ a.start < b.stop ∧ b.start < a.stop) ∧
    (∀ (c : Interval) (t : ScheduledTask),
        c.start = t.startTime → c.start < c.stop → 1 ≤ t.durationMinutes →
        overlaps c t.interval = true) ∧
    (∀ t u : ScheduledTask, t.endTime = u.startTime →
        overlaps t.interval u.interval = false ∧ computeGaps [t, u] = []) := by
  refine ⟨?_, ?_, ?_⟩
  · intro a b
    simp [overlaps]
  · intro c t h1 h2 h3
    simp [overlaps, ScheduledTask.interval, ScheduledTask.endTime]
    omega
  · intro t u h
    constructor
    · have hnot : ¬ u.startTime < t.endTime := by omega
      simp [overlaps, ScheduledTask.interval, hnot]
    · simp [computeGaps, h]

/-- Witness for C1 at a concrete input: a candidate starting exactly at the
Team standup's start time overlaps it. -/
theorem C1_overlap_half_open_witness :
    overlaps ⟨540, 570⟩
      (ScheduledTask.interval ⟨0, "Team standup", 540, 30, false, false, 0⟩) = true :=
  C1_overlap_half_open.2.1 ⟨540, 570⟩ ⟨0, "Team standup", 540, 30, false, false, 0⟩
    rfl (by decide) (by decide)

/-- Claim C2: the number of gap entries equals the number of chronologically
adjacent scheduled pairs with strictly positive idle time; zero or one
scheduled task yields zero gaps; and every produced gap has strictly
positive duration equal to its end minus its start. -/
theorem C2_gap_count (l : List ScheduledTask) :
    (computeGaps l).length =
      (adjacentPairs l).countP (fun p => decide (p.1.endTime < p.2.startTime)) ∧
    computeGaps ([] : List ScheduledTask) = [] ∧
    (∀ t : ScheduledTask, computeGaps [t] = []) ∧
    (∀ g ∈ computeGaps l,
        g.durationMinutes = g.endTime - g.startTime ∧ 0 < g.durationMinutes) := by
  refine ⟨length_computeGaps l, rfl, fun t => rfl, ?_⟩
  intro g hg
  have := mem_computeGaps_lt l g hg
  exact ⟨rfl, by simp [Gap.durationMinutes]; omega⟩

/-- Witness for C2 at a concrete input: the single gap of Scenario B has
positive duration equal to its span. -/
theorem C2_gap_count_witness :
    (⟨630, 720⟩ : Gap).durationMinutes = 720 - 630 ∧
      0 < (⟨630, 720⟩ : Gap).durationMinutes :=
  (C2_gap_count (scheduledView scenarioB)).2.2.2 ⟨630, 720⟩ (by decide)

/-- Claim C4: gap labels are human-duration strings built from hours and
minutes with any zero component omitted; in Scenario B exactly one gap
exists, spanning 10:30 to 12:00 (minutes 630 to 720), its label is 1h 30m
and its text contains both that label and the word free. -/
theorem C4_gap_labels :
    (∀ g : Gap, gapLabel g = calculateHoursAndMinutes g.durationMinutes) ∧
    (∀ hh rr : Nat, 0 < hh → 0 < rr → rr < 60 →
        calculateHoursAndMinutes (60 * hh + rr) =
          toString hh ++ "h " ++ toString rr ++ "m") ∧
    (∀ hh : Nat, 0 < hh → calculateHoursAndMinutes (60 * hh) = toString hh ++ "h") ∧
    (∀ rr : Nat, 0 < rr → rr < 60 → calculateHoursAndMinutes rr = toString rr ++ "m") ∧
    computeGaps (scheduledView scenarioB) = [⟨630, 720⟩] ∧
    gapLabel ⟨630, 720⟩ = "1h 30m" ∧
    containsStr (gapText ⟨630, 720⟩) "free" = true ∧
    containsStr (gapText ⟨630, 720⟩) "1h 30m" = true := by
  refine ⟨fun g => rfl, ?_, ?_, ?_, by decide, by decide, by decide, by decide⟩
  · intro hh rr h1 h2 h3
    have hd : (60 * hh + rr) / 60 = hh := by omega
    have hm : (60 * hh + rr) % 60 = rr := by omega
    have hne : hh ≠ 0 := by omega
    have rne : rr ≠ 0 := by omega
    simp [calculateHoursAndMinutes, hd, hm, hne, rne]
  · intro hh h1
    have hd : 60 * hh / 60 = hh := by omega
    have hm : 60 * hh % 60 = 0 := by omega
    have hne : hh ≠ 0 := by omega
    simp [calculateHoursAndMinutes, hd, hm, hne]
  · intro rr h1 h2
    have hd : rr / 60 = 0 := by omega
    have hm : rr % 60 = rr := by omega
    have rne : rr ≠ 0 := by omega
    simp [calculateHoursAndMinutes, hd, hm, rne]

/-- Witness for C4 at a concrete input: ninety minutes renders as 1h 30m. -/
theorem C4_gap_labels_witness :
    calculateHoursAndMinutes (60 * 1 + 30) = toString 1 ++ "h " ++ toString 30 ++ "m" :=
  C4_gap_labels.2.1 1 30 (by decide) (by decide) (by decide)

/-- Claim C5: the exposed task lists always satisfy the ordering contracts:
the scheduled view is sorted ascending by start time with ties broken by
creation order, and the unscheduled view is sorted by priority descending
with ties in insertion order; both views are permutations of the stored
collections. -/
theorem C5_ordering (st : StoreState) :
    List.Sorted schedLE (scheduledView st) ∧
    (scheduledView st).Perm st.scheduled ∧
    List.Pairwise (fun a b => a.startTime ≤ b.startTime) (scheduledView st) ∧
    List.Sorted unschedLE (unscheduledView st) ∧
    (unscheduledView st).Perm st.unscheduled ∧
    List.Pairwise (fun a b => b.priority.rank ≤ a.priority.rank) (unscheduledView st) := by
  refine ⟨List.sorted_insertionSort schedLE st.scheduled,
    List.perm_insertionSort schedLE st.scheduled, ?_,
    List.sorted_insertionSort unschedLE st.unscheduled,
    List.perm_insertionSort unschedLE st.unscheduled, ?_⟩
  · exact List.Pairwise.imp (fun hab => by unfold schedLE at hab; omega)
      (List.sorted_insertionSort schedLE st.scheduled)
  · exact List.Pairwise.imp (fun hab => by unfold unschedLE at hab; omega)
      (List.sorted_insertionSort unschedLE st.unscheduled)

/-- Scenario D setup: the Scenario B schedule plus one high-priority
unscheduled task, Gap filler task, estimated at twenty minutes. -/
def scenarioD : StoreState :=
  { scheduled := scenarioB.scheduled,
    unscheduled := [⟨3, "Gap filler task", .high, 20, false, 3⟩],
    nextId := 4 }

/-- Claim C3: a candidate producing at least one conflict puts the surface
in the conflicted (pre-approved) state: the submit label of every surface
contains Reschedule, and submitting performs the write immediately (the add
form appends the task, the edit form updates) with no secondary
confirmation dialog. -/
theorem C3_conflicted_preapproved (st : StoreState) (c : Candidate)
    (excl : Option Nat)
    (h : findConflicts st.scheduled c.interval excl ≠ []) :
    surfaceStateFor st.scheduled c.interval excl = .conflicted ∧
    (∀ k : SurfaceKind,
        containsStr (submitLabel k (surfaceStateFor st.scheduled c.interval excl))
          "Reschedule" = true) ∧
    (c.description ≠ "" →
        (submitAdd st c).1.scheduled.length = st.scheduled.length + 1 ∧
        (∃ t ∈ (submitAdd st c).1.scheduled,
            t.description = c.description ∧ t.startTime = c.startTime ∧
            t.durationMinutes = c.durationMinutes) ∧
        (submitAdd st c).2 = false) ∧
    (∀ id : Nat, (submitEdit st id c).2 = false) := by
  have hs : surfaceStateFor st.scheduled c.interval excl = .conflicted := by
    simp [surfaceStateFor, h]
  refine ⟨hs, ?_, ?_, ?_⟩
  · intro k
    rw [hs]
    cases k <;> decide
  · intro hdesc
    refine ⟨by simp [submitAdd, hdesc], ?_, by simp [submitAdd, hdesc]⟩
    refine ⟨⟨st.nextId, c.description, c.startTime, c.durationMinutes,
      false, false, st.nextId⟩, ?_, rfl, rfl, rfl⟩
    simp [submitAdd, hdesc]
  · intro id
    by_cases hd : c.description = "" <;> simp [submitEdit, hd]

/-- Witness for C3 at a concrete input: a candidate equal to the Team
standup's slot conflicts and puts the add form in the conflicted state. -/
theorem C3_conflicted_preapproved_witness :
    surfaceStateFor scenarioB.scheduled
      (Candidate.interval ⟨"Overlapping task", 540, 30⟩) none =
      SurfaceState.conflicted :=
  (C3_conflicted_preapproved scenarioB ⟨"Overlapping task", 540, 30⟩ none
    (by decide)).1

/-- Claim C6: the bulk clear-all flow always shows a confirmation dialog
before any mutation, regardless of prior state; an accepted dialog reduces
both task counts to zero, a cancelled one leaves the store unchanged. -/
theorem C6_clear_all (st : StoreState) (r : ConfirmOutcome) :
    (clearAllFlow st r).2 = true ∧
    (r = .accepted →
        (clearAllFlow st r).1.scheduled.length = 0 ∧
        (clearAllFlow st r).1.unscheduled.length = 0) ∧
    (r = .cancelled → (clearAllFlow st r).1 = st) := by
  cases r <;> simp [clearAllFlow]

/-- Witness for C6 at a concrete input: accepting the dialog on Scenario B
empties both collections. -/
theorem C6_clear_all_witness :
    (clearAllFlow scenarioB .accepted).1.scheduled.length = 0 ∧
    (clearAllFlow scenarioB .accepted).1.unscheduled.length = 0 :=
  (C6_clear_all scenarioB .accepted).2.1 rfl

/-- Claim C7: submitting the add form with an empty description is rejected:
the store is returned unchanged (both lists identical) and no confirmation
dialog is involved. -/
theorem C7_empty_description (st : StoreState) (c : Candidate)
    (h : c.description = "") :
    submitAdd st c = (st, false) ∧
    (submitAdd st c).1.scheduled = st.scheduled ∧
    (submitAdd st c).1.unscheduled = st.unscheduled := by
  simp [submitAdd, h]

/-- Witness for C7 at a concrete input: an empty-description candidate
leaves Scenario B untouched. -/
theorem C7_empty_description_witness :
    submitAdd scenarioB ⟨"", 540, 30⟩ = (scenarioB, false) :=
  (C7_empty_description scenarioB ⟨"", 540, 30⟩ rfl).1

/-- Claim C8: describeConflicts returns the empty string iff the conflict
list is empty, and otherwise its message contains the first conflicting
task's description verbatim. -/
theorem C8_describe_conflicts :
    (∀ conflicts : List ScheduledTask,
        (describeConflicts conflicts = "" ↔ conflicts = [])) ∧
    (∀ (c : ScheduledTask) (rest : List ScheduledTask),
        containsStr (describeConflicts (c :: rest)) c.description = true) := by
  constructor
  · intro conflicts
    cases conflicts with
    | nil => simp [describeConflicts]
    | cons c rest =>
      constructor
      · intro h
        exact absurd h (describeConflicts_cons_ne c rest)
      · intro h
        exact absurd h (List.cons_ne_nil c rest)
  · intro c rest
    exact containsStr_of_middle "This time overlaps with " c.description "."

/-- Claim C9: the gap-fill flow: the picker opened on a gap lists exactly
the unscheduled tasks; selecting a task pre-fills the schedule modal with
the gap's start time and the task's own estimated duration; and confirming
the modal moves the task from the unscheduled to the scheduled set, growing
the scheduled count by one and shrinking the unscheduled count by one. -/
theorem C9_gap_fill (st : StoreState) (g : Gap) (t : UnscheduledTask)
    (id start dur : Nat) (u : UnscheduledTask)
    (hfind : st.unscheduled.find? (fun v => v.id == id) = some u) :
    (∀ v ∈ gapPickerList st, v ∈ st.unscheduled) ∧
    (∀ v ∈ st.unscheduled, v ∈ gapPickerList st) ∧
    (prefillFromGap g t).startTime = g.startTime ∧
    (prefillFromGap g t).durationMinutes = t.estimatedDurationMinutes ∧
    (scheduleTask st id start dur).1.scheduled.length = st.scheduled.length + 1 ∧
    (scheduleTask st id start dur).1.unscheduled.length + 1 = st.unscheduled.length ∧
    (∃ w ∈ (scheduleTask st id start dur).1.scheduled,
        w.id = u.id ∧ w.description = u.description ∧ w.startTime = start ∧
        w.durationMinutes = dur) := by
  have hperm := List.perm_insertionSort unschedLE st.unscheduled
  refine ⟨fun v hv => hperm.mem_iff.1 hv, fun v hv => hperm.mem_iff.2 hv,
    rfl, rfl, by simp [scheduleTask, hfind], ?_, ?_⟩
  · simp only [scheduleTask, hfind]
    exact length_eraseP_of_find (fun v => v.id == id) st.unscheduled u hfind
  · refine ⟨⟨u.id, u.description, start, dur, u.completed, false, u.createdAt⟩,
      ?_, rfl, rfl, rfl, rfl⟩
    simp [scheduleTask, hfind]

/-- Witness for C9 at a concrete input: scheduling the Gap filler task into
the Scenario B gap grows the scheduled list from three to four tasks. -/
theorem C9_gap_fill_witness :
    (scheduleTask scenarioD 3 630 20).1.scheduled.length =
      scenarioD.scheduled.length + 1 :=
  (C9_gap_fill scenarioD ⟨630, 720⟩ ⟨3, "Gap filler task", .high, 20, false, 3⟩
    3 630 20 ⟨3, "Gap filler task", .high, 20, false, 3⟩ (by decide)).2.2.2.2.1

/-- Claim C10: persisting then reloading is a round-trip: reloading the
saved snapshot re-derives the same task collections, every scheduled task
reappears with its description intact, and the gap computation over the
reloaded list yields the same gaps as before. -/
theorem C10_persistence_round_trip (st : StoreState) :
    (loadRoom (saveRoom st)).scheduled = st.scheduled ∧
    (loadRoom (saveRoom st)).unscheduled = st.unscheduled ∧
    (loadRoom (saveRoom st)).scheduled.map ScheduledTask.description =
      st.scheduled.map ScheduledTask.description ∧
    computeGaps (scheduledView (loadRoom (saveRoom st))) =
      computeGaps (scheduledView st) ∧
    (computeGaps (scheduledView (loadRoom (saveRoom st)))).length =
      (computeGaps (scheduledView st)).length := by
  have hs : (loadRoom (saveRoom st)).scheduled = st.scheduled := by
    simp only [loadRoom, saveRoom]
    rw [List.filterMap_append, filterMap_decS_map_encS, filterMap_decS_map_encU,
      List.append_nil]
  have hu : (loadRoom (saveRoom st)).unscheduled = st.unscheduled := by
    simp only [loadRoom, saveRoom]
    rw [List.filterMap_append, filterMap_decU_map_encU, filterMap_decU_map_encS,
      List.nil_append]
  refine ⟨hs, hu, by rw [hs], ?_, ?_⟩
  · simp [scheduledView, hs]
  · simp [scheduledView, hs]

end Fortudo
